import Mathlib

/-!
SPORTSHUB: inventory and session handlers of `src/server.js`.

A shallow embedding of the Express request handlers of `src/server.js`.

* The MySQL tables `users` and `items` are lists of rows; a handler takes the
  table (and, where it reads it, `req.session.user`) and returns the JSON
  response together with the new table (and session).
* A request-body field is `Option T`: `none` is JavaScript `undefined` (the
  field is absent), `some v` a value of the column's type.  Numbers are
  integers, route parameters `:id` are integers.
* `!x` is `falsy` / `falsyNum`: `undefined`, the empty string and `0` are falsy.
* The table declarations are not part of the repository; what the handlers
  need of them (`NOT NULL` columns, generated ids, the text comparison of
  `LIKE`) is modelled where it is used and said so there.
-/

namespace SportsHub

/-! ## Data model -/

/-- Row of the `users` table. -/
structure User where
  username : String
  password : String
  role : String
deriving DecidableEq, Repr

/-- Row of the `items` table. -/
structure Item where
  id : Int
  name : String
  category : String
  price : Int
  quantity : Int
  image_url : Option String
deriving DecidableEq, Repr

/-- The value of `req.session.user`: `none` when nobody is logged in. -/
abbrev Session := Option User

/-- What a handler sends: the HTTP status and the fields of the JSON body
(`none` for a field the body does not have). -/
structure Response where
  status : Nat
  success : Option Bool
  message : Option String
  username : Option String
  role : Option String
deriving DecidableEq, Repr

/-- The body `{ success: false, message }` sent with `res.status(code)`. -/
def failure (code : Nat) (msg : String) : Response :=
  ⟨code, some false, some msg, none, none⟩

/-- The body `{ success: true, message }` sent with status 200. -/
def ok (msg : String) : Response :=
  ⟨200, some true, some msg, none, none⟩

/-- The body `{ message }` (no `success` field) sent with `res.status(code)`. -/
def messageOnly (code : Nat) (msg : String) : Response :=
  ⟨code, none, some msg, none, none⟩

/-- JavaScript `!x` for a string-valued body field. -/
def falsy (x : Option String) : Bool :=
  match x with
  | none => true
  | some s => s == ""

/-- JavaScript `!x` for a number-valued body field. -/
def falsyNum (x : Option Int) : Bool :=
  match x with
  | none => true
  | some n => n == 0

/-! ## The store -/

/-- The query `SELECT * FROM users WHERE username = ?`. -/
def selectUsersByName (users : List User) (username : Option String) : List User :=
  users.filter (fun u => some u.username == username)

/-- The query `SELECT * FROM users WHERE username = ? AND password = ?`. -/
def selectUsersByCredentials (users : List User) (username password : Option String) :
    List User :=
  users.filter (fun u => some u.username == username && some u.password == password)

/-- The query `INSERT INTO users (username, password, role) VALUES (?, ?, ?)`;
`none` is the error of the callback (a `NULL` for a column that is not nullable). -/
def insertUser (users : List User) (username password role : Option String) :
    Option (List User) :=
  match username, password, role with
  | some u, some p, some r => some (users ++ [⟨u, p, r⟩])
  | _, _, _ => none

/-- The query `SELECT quantity FROM items WHERE id = ?`. -/
def selectQuantity (items : List Item) (id : Int) : List Int :=
  (items.filter (fun it => it.id == id)).map (fun it => it.quantity)

/-- Modelled from the spec: the declaration of the `items` table is not in the
repository; the spec gives `quantity: integer`, so the column holds an integer
and is not nullable.  The query `UPDATE items SET quantity = ? WHERE id = ?`
sets the column in every row with that id; `none` is the error of the callback,
raised when a row would receive `NULL`. -/
def updateItemQuantity (items : List Item) (quantity : Option Int) (id : Int) :
    Option (List Item) :=
  match quantity with
  | some q => some (items.map (fun it => if it.id == id then { it with quantity := q } else it))
  | none => if items.any (fun it => it.id == id) then none else some items

/-- Modelled from the spec: the declaration of the `items` table is not in the
repository; the spec gives `id: integer (unique, generated)`.  The generated id
is one more than the largest id in the table (and at least 1). -/
def freshId (items : List Item) : Int :=
  (items.map (fun it => it.id)).foldl max 0 + 1

/-- The query `INSERT INTO items (name, category, price, quantity, image_url)
VALUES (?, ?, ?, ?, ?)`; `none` is the error of the callback (a `NULL` for a
column that is not nullable; `image_url` is nullable). -/
def insertItem (items : List Item) (name category : Option String) (price quantity : Option Int)
    (image_url : Option String) : Option (List Item) :=
  match name, category, price, quantity with
  | some n, some c, some p, some q => some (items ++ [⟨freshId items, n, c, p, q, image_url⟩])
  | _, _, _, _ => none

/-- The query `DELETE FROM items WHERE id = ?`: the remaining rows and
`affectedRows`. -/
def deleteItemRows (items : List Item) (id : Int) : List Item × Nat :=
  (items.filter (fun it => !(it.id == id)), (items.filter (fun it => it.id == id)).length)

/-! ### The `LIKE` operator -/

/-- Modelled from the spec: the collation of the text columns is not in the
repository; the spec asks for case-insensitive matching, here equality of the
lower-cased characters. -/
def charEq (a b : Char) : Bool :=
  a.toLower == b.toLower

/-- The SQL operator `subject LIKE pattern` on character lists (first argument
the pattern): `%` matches any run of characters, `_` any one character, a
backslash makes the next pattern character literal, every other character
matches itself up to `charEq`. -/
def likeMatch : List Char → List Char → Bool
  | [], s => s.isEmpty
  | c :: p, s =>
    if c = '%' then s.tails.any (likeMatch p)
    else if c = '_' then
      match s with
      | [] => false
      | _ :: t => likeMatch p t
    else if c = '\\' then
      match p with
      | [] =>
        match s with
        | [] => false
        | x :: t => charEq x c && t.isEmpty
      | d :: p' =>
        match s with
        | [] => false
        | x :: t => charEq x d && likeMatch p' t
    else
      match s with
      | [] => false
      | x :: t => charEq x c && likeMatch p t

/-- The SQL condition `subject LIKE pattern` on strings. -/
def sqlLike (subject pattern : String) : Bool :=
  likeMatch pattern.toList subject.toList

/-! ## Handlers -/

/-- Body of `POST /api/signup`. -/
structure SignupBody where
  username : Option String
  password : Option String
  role : Option String
deriving DecidableEq, Repr

/-- Handler of `POST /api/signup` (server.js 63-104). -/
def signup (users : List User) (body : SignupBody) : Response × List User :=
  if falsy body.username || falsy body.password || falsy body.role then
    (failure 400 "All fields are required.", users)
  else
    let rows := selectUsersByName users body.username
    if rows.length > 0 then
      (failure 400 "Username already exists.", users)
    else
      match insertUser users body.username body.password body.role with
      | none => (failure 500 "Failed to create user.", users)
      | some users' => (ok "Signup successful! Please login.", users')

/-- Body of `POST /api/login`. -/
structure LoginBody where
  username : Option String
  password : Option String
deriving DecidableEq, Repr

/-- Handler of `POST /api/login` (server.js 107-137): the response and the
value of `req.session.user` afterwards. -/
def login (users : List User) (session : Session) (body : LoginBody) : Response × Session :=
  if falsy body.username || falsy body.password then
    (failure 400 "Enter username and password", session)
  else
    let results := selectUsersByCredentials users body.username body.password
    match results with
    | [] => (failure 401 "Invalid username or password", session)
    | user :: _ => (⟨200, some true, none, some user.username, some user.role⟩, some user)

/-- Handler of `GET /api/items` (server.js 171-184); `search` is
`req.query.search`. -/
def getItems (items : List Item) (search : Option String) : List Item :=
  let search := "%" ++ (if falsy search then "" else search.getD "") ++ "%"
  items.filter (fun it => sqlLike it.name search || sqlLike it.category search)

/-- The test `!req.session.user || req.session.user.role !== "dealer"`. -/
def notDealer (session : Session) : Bool :=
  match session with
  | none => true
  | some user => user.role != "dealer"

/-- Handler of `PUT /api/update-quantity/:id`, first definition (server.js
187-206).  Express runs the handlers of a route in the order they were
registered and this one always sends a response, so it is the one that serves
the route. -/
def updateQuantity (items : List Item) (session : Session) (id : Int) (quantity : Option Int) :
    Response × List Item :=
  if notDealer session then
    (failure 403 "Only dealers can update quantity.", items)
  else
    match quantity with
    | some q =>
      if q < 0 then
        (failure 400 "Invalid quantity.", items)
      else
        match updateItemQuantity items (some q) id with
        | none => (failure 500 "Database update error.", items)
        | some items' => (ok "Item quantity updated successfully!", items')
    | none =>
      -- `undefined < 0` is false
      match updateItemQuantity items none id with
      | none => (failure 500 "Database update error.", items)
      | some items' => (ok "Item quantity updated successfully!", items')

/-- Handler of `PUT /api/update-quantity/:id`, second definition (server.js
222-238), registered after `updateQuantity` and so never reached. -/
def updateQuantityShadowed (items : List Item) (id : Int) (quantity : Option Int) :
    Response × List Item :=
  match quantity with
  | some q =>
    if q < 0 then
      (failure 400 "Quantity cannot be negative", items)
    else
      match updateItemQuantity items (some q) id with
      | none => (failure 500 "Database error", items)
      | some items' => (ok "Item quantity updated successfully", items')
  | none =>
    match updateItemQuantity items none id with
    | none => (failure 500 "Database error", items)
    | some items' => (ok "Item quantity updated successfully", items')

/-- Body of `POST /api/items` and of `POST /api/add-item`. -/
structure ItemBody where
  name : Option String
  category : Option String
  price : Option Int
  quantity : Option Int
  image_url : Option String
deriving DecidableEq, Repr

/-- Handler of `POST /api/add-item` (server.js 241-256). -/
def addItemLegacy (items : List Item) (body : ItemBody) : Response × List Item :=
  if falsy body.name || falsy body.category || falsyNum body.price || falsyNum body.quantity
      || falsy body.image_url then
    (failure 400 "All fields are required", items)
  else
    match insertItem items body.name body.category body.price body.quantity body.image_url with
    | none => (failure 500 "Database error", items)
    | some items' => (ok "Item added successfully!", items')

/-- Handler of `POST /api/items` (server.js 260-274); the session is an
argument although the handler never reads it. -/
def addItem (items : List Item) (_session : Session) (body : ItemBody) : Response × List Item :=
  if falsy body.name || falsy body.category || falsyNum body.price || falsyNum body.quantity
      || falsy body.image_url then
    (messageOnly 400 "All fields are required!", items)
  else
    match insertItem items body.name body.category body.price body.quantity body.image_url with
    | none => (messageOnly 500 "Database error while adding item", items)
    | some items' => (ok "Item added successfully!", items')

/-- Handler of `DELETE /api/items/:id` (server.js 278-291); the session is an
argument although the handler never reads it. -/
def deleteItem (items : List Item) (_session : Session) (id : Int) : Response × List Item :=
  let result := deleteItemRows items id
  if result.2 = 0 then
    (messageOnly 404 "Item not found", items)
  else
    (ok "Item deleted successfully!", result.1)

/-- Handler of `POST /api/buy/:id` (server.js 294-335), run without another
request in between. -/
def buy (items : List Item) (itemId : Int) (quantity : Option Int) : Response × List Item :=
  match quantity with
  | none => (⟨200, some false, some "Invalid quantity", none, none⟩, items)
  | some quantity =>
    if quantity == 0 || quantity ≤ 0 then
      (⟨200, some false, some "Invalid quantity", none, none⟩, items)
    else
      match selectQuantity items itemId with
      | [] => (⟨200, some false, some "Item not found", none, none⟩, items)
      | currentStock :: _ =>
        if currentStock < quantity then
          (⟨200, some false,
            some ("Not enough stock available! Only " ++ toString currentStock ++ " left."),
            none, none⟩, items)
        else
          let newStock := currentStock - quantity
          match updateItemQuantity items (some newStock) itemId with
          | none => (failure 500 "Database error", items)
          | some items' =>
            (ok ("Stock updated successfully! Remaining stock: " ++ toString newStock), items')

/-! ## Sequences of stock calls -/

/-- The data model's invariant on the `items` table: no quantity is negative. -/
def NonNegative (items : List Item) : Prop :=
  ∀ it ∈ items, 0 ≤ it.quantity

instance (items : List Item) : Decidable (NonNegative items) :=
  inferInstanceAs (Decidable (∀ it ∈ items, 0 ≤ it.quantity))

/-- One request that writes a quantity: a purchase (`POST /api/buy/:id`) or a
quantity update (`PUT /api/update-quantity/:id`) sent with some session. -/
inductive StockCall where
  | purchase (itemId : Int) (quantity : Option Int)
  | updateQuantity (session : Session) (id : Int) (quantity : Option Int)
deriving DecidableEq, Repr

/-- The `items` table after one stock call. -/
def StockCall.run (items : List Item) : StockCall → List Item
  | .purchase itemId quantity => (buy items itemId quantity).2
  | .updateQuantity session id quantity => (SportsHub.updateQuantity items session id quantity).2

/-- The `items` table after a sequence of stock calls, served one after the other. -/
def runCalls (items : List Item) (calls : List StockCall) : List Item :=
  calls.foldl StockCall.run items

/-! ## Search as the spec words it -/

/-- The spec's wording of a match: `query` occurs in `subject` as a substring,
letter case ignored (both lower-cased, then compared as lists of characters). -/
def containsIgnoreCase (query subject : String) : Bool :=
  decide ((query.toList.map Char.toLower) <:+: (subject.toList.map Char.toLower))

/-- The spec's wording of `search(query)`: the items whose name or category
contains the query as a case-insensitive substring. -/
def specSearch (items : List Item) (query : String) : List Item :=
  items.filter (fun it => containsIgnoreCase query it.name || containsIgnoreCase query it.category)

/-- A character that `LIKE` reads as itself: not `%`, `_` or the backslash. -/
def plainChar (c : Char) : Bool :=
  !(c == '%') && !(c == '_') && !(c == '\\')

/-! ## Purchases served concurrently -/

/-- Where one `POST /api/buy/:id` request stands: not started; past its
`SELECT`, with the `UPDATE` it is about to send; or answered. -/
inductive BuyState where
  | received (itemId : Int) (quantity : Option Int)
  | awaitingUpdate (itemId : Int) (newStock : Int)
  | responded (response : Response)
deriving DecidableEq, Repr

/-- One step of a `POST /api/buy/:id` request against the table: from
`received`, the validation, the `SELECT` and the stock check (server.js
298-321); from `awaitingUpdate`, the `UPDATE` and the response (server.js
324-330).  The two `await`s are the points where another request can run. -/
def buyStep (items : List Item) : BuyState → BuyState × List Item
  | .received itemId quantity =>
    match quantity with
    | none => (.responded ⟨200, some false, some "Invalid quantity", none, none⟩, items)
    | some quantity =>
      if quantity == 0 || quantity ≤ 0 then
        (.responded ⟨200, some false, some "Invalid quantity", none, none⟩, items)
      else
        match selectQuantity items itemId with
        | [] => (.responded ⟨200, some false, some "Item not found", none, none⟩, items)
        | currentStock :: _ =>
          if currentStock < quantity then
            (.responded ⟨200, some false,
              some ("Not enough stock available! Only " ++ toString currentStock ++ " left."),
              none, none⟩, items)
          else
            (.awaitingUpdate itemId (currentStock - quantity), items)
  | .awaitingUpdate itemId newStock =>
    match updateItemQuantity items (some newStock) itemId with
    | none => (.responded (failure 500 "Database error"), items)
    | some items' =>
      (.responded (ok ("Stock updated successfully! Remaining stock: " ++ toString newStock)),
       items')
  | .responded response => (.responded response, items)

/-- The requests in flight and the table after the schedule: each entry of
the schedule names the request (by position) that takes its next step. -/
def runSchedule (items : List Item) (requests : List BuyState) :
    List Nat → List BuyState × List Item
  | [] => (requests, items)
  | i :: schedule =>
    match requests.get? i with
    | none => runSchedule items requests schedule
    | some request =>
      let next := buyStep items request
      runSchedule next.2 (requests.set i next.1) schedule

/-- The total amount sold when purchases of the given amounts on one id are
served one after the other: the sum of the amounts of the purchases answered
with `success: true`. -/
def soldInOrder (items : List Item) (itemId : Int) : List Int → Int
  | [] => 0
  | amount :: rest =>
    let result := buy items itemId (some amount)
    (if result.1.success = some true then amount else 0) + soldInOrder result.2 itemId rest

/-! ## Lemmas on the store -/

theorem nonNegative_setQuantity (items : List Item) (id q : Int) (hq : 0 ≤ q)
    (h : NonNegative items) :
    NonNegative (items.map (fun it => if it.id == id then { it with quantity := q } else it)) := by
  intro it hit
  rw [List.mem_map] at hit
  obtain ⟨a, ha, rfl⟩ := hit
  by_cases hid : (a.id == id) = true
  · simpa [hid] using hq
  · simpa [hid] using h a ha

theorem nonNegative_updateItemQuantity (items items' : List Item) (quantity : Option Int) (id : Int)
    (hq : ∀ q, quantity = some q → 0 ≤ q) (h : NonNegative items)
    (hu : updateItemQuantity items quantity id = some items') : NonNegative items' := by
  cases quantity with
  | none =>
    simp only [updateItemQuantity] at hu
    split at hu
    · cases hu
    · cases hu; exact h
  | some q =>
    simp only [updateItemQuantity, Option.some.injEq] at hu
    subst hu
    exact nonNegative_setQuantity items id q (hq q rfl) h

theorem nonNegative_buy (items : List Item) (itemId : Int) (quantity : Option Int)
    (h : NonNegative items) : NonNegative (buy items itemId quantity).2 := by
  unfold buy
  split
  · exact h
  · rename_i amount
    split
    · exact h
    · rename_i hpos
      split
      · exact h
      · rename_i currentStock rest hsel
        split
        · exact h
        · rename_i hlt
          simp only []
          split
          · exact h
          · rename_i items' hu
            refine nonNegative_updateItemQuantity items items' _ itemId ?_ h hu
            intro q hq
            cases hq
            omega

theorem nonNegative_updateQuantity (items : List Item) (session : Session) (id : Int)
    (quantity : Option Int) (h : NonNegative items) :
    NonNegative (updateQuantity items session id quantity).2 := by
  unfold updateQuantity
  split
  · exact h
  · split
    · rename_i q
      split
      · exact h
      · rename_i hq
        split
        · exact h
        · rename_i items' hu
          refine nonNegative_updateItemQuantity items items' _ id ?_ h hu
          intro q' hq'
          cases hq'
          omega
    · split
      · exact h
      · rename_i items' hu
        refine nonNegative_updateItemQuantity items items' _ id ?_ h hu
        intro q' hq'
        cases hq'

theorem nonNegative_run (items : List Item) (call : StockCall) (h : NonNegative items) :
    NonNegative (call.run items) := by
  cases call with
  | purchase itemId quantity => exact nonNegative_buy items itemId quantity h
  | updateQuantity session id quantity => exact nonNegative_updateQuantity items session id quantity h

theorem head_selectQuantity_mem (items : List Item) (id q : Int)
    (h : (selectQuantity items id).head? = some q) :
    ∃ it ∈ items, it.id = id ∧ it.quantity = q := by
  have hmem : q ∈ selectQuantity items id := List.mem_of_mem_head? h
  unfold selectQuantity at hmem
  rw [List.mem_map] at hmem
  obtain ⟨it, hit, hq⟩ := hmem
  rw [List.mem_filter] at hit
  exact ⟨it, hit.1, by simpa using hit.2, hq⟩

/-- The generated id is larger than every id of the table. -/
theorem lt_freshId (items : List Item) : ∀ it ∈ items, it.id < freshId items := by
  have hfold : ∀ (l : List Int) (acc : Int), acc ≤ l.foldl max acc ∧ ∀ x ∈ l, x ≤ l.foldl max acc := by
    intro l
    induction l with
    | nil => intro acc; simp
    | cons a rest ih =>
      intro acc
      obtain ⟨h1, h2⟩ := ih (max acc a)
      refine ⟨le_trans (le_max_left acc a) h1, ?_⟩
      intro x hx
      rcases List.mem_cons.mp hx with rfl | hx
      · exact le_trans (le_max_right acc x) h1
      · exact h2 x hx
  intro it hit
  have := (hfold (items.map (fun it => it.id)) 0).2 it.id (List.mem_map.mpr ⟨it, hit, rfl⟩)
  unfold freshId
  omega

/-! ### The purchase handler, case by case -/

theorem buy_invalid (items : List Item) (itemId amount : Int) (h : amount ≤ 0) :
    buy items itemId (some amount) =
      (⟨200, some false, some "Invalid quantity", none, none⟩, items) := by
  simp [buy, h]

theorem buy_refused (items : List Item) (itemId q amount : Int)
    (hq : (selectQuantity items itemId).head? = some q) (hpos : 0 < amount) (hlt : q < amount) :
    buy items itemId (some amount) =
      (⟨200, some false,
        some ("Not enough stock available! Only " ++ toString q ++ " left."), none, none⟩,
       items) := by
  have hpos' : ¬ (amount ≤ 0) := by omega
  have hne : amount ≠ 0 := by omega
  cases hsel : selectQuantity items itemId with
  | nil => rw [hsel] at hq; cases hq
  | cons currentStock rest =>
    rw [hsel] at hq
    simp only [List.head?_cons, Option.some.injEq] at hq
    subst hq
    simp [buy, hsel, hlt, hpos', hne]

theorem buy_served (items : List Item) (itemId q amount : Int)
    (hq : (selectQuantity items itemId).head? = some q) (hpos : 0 < amount) (hle : amount ≤ q) :
    buy items itemId (some amount) =
      (ok ("Stock updated successfully! Remaining stock: " ++ toString (q - amount)),
       items.map (fun it =>
         if it.id == itemId then { it with quantity := q - amount } else it)) := by
  have hpos' : ¬ (amount ≤ 0) := by omega
  have hne : amount ≠ 0 := by omega
  have hnlt : ¬ (q < amount) := by omega
  cases hsel : selectQuantity items itemId with
  | nil => rw [hsel] at hq; cases hq
  | cons currentStock rest =>
    rw [hsel] at hq
    simp only [List.head?_cons, Option.some.injEq] at hq
    subst hq
    simp [buy, hsel, hnlt, hpos', hne, updateItemQuantity]

theorem head_selectQuantity_set (items : List Item) (id q r : Int)
    (hq : (selectQuantity items id).head? = some q) :
    (selectQuantity
      (items.map (fun it => if it.id == id then { it with quantity := r } else it)) id).head? =
      some r := by
  simp only [selectQuantity] at hq ⊢
  induction items with
  | nil => simp at hq
  | cons a rest ih =>
    by_cases ha : a.id = id
    · simp [List.filter_cons, ha]
    · have hb : (a.id == id) = false := by simpa using ha
      simp only [List.map_cons, List.filter_cons, hb] at hq ⊢
      simpa [ha] using ih hq

/-- Served one after the other, the purchases on one id never sell more than
the stock that was there at the start. -/
theorem soldInOrder_le (itemId : Int) (amounts : List Int) :
    ∀ (items : List Item) (q : Int), (selectQuantity items itemId).head? = some q → 0 ≤ q →
      soldInOrder items itemId amounts ≤ q := by
  induction amounts with
  | nil => intro items q _ h0; simpa [soldInOrder] using h0
  | cons amount rest ih =>
    intro items q hq h0
    by_cases hpos : amount ≤ 0
    · have := ih items q hq h0
      simp only [soldInOrder, buy_invalid items itemId amount hpos]
      simpa using this
    · by_cases hlt : q < amount
      · have := ih items q hq h0
        simp only [soldInOrder, buy_refused items itemId q amount hq (by omega) hlt]
        simpa using this
      · have := ih _ (q - amount) (head_selectQuantity_set items itemId q (q - amount) hq)
          (by omega)
        simp only [soldInOrder, buy_served items itemId q amount hq (by omega) (by omega)]
        simp only [ok, if_true]
        omega

/-- The two steps of a purchase, taken with no other request in between, are
the handler `buy`. -/
theorem buyStep_twice (items : List Item) (itemId : Int) (quantity : Option Int) :
    buyStep (buyStep items (.received itemId quantity)).2
        (buyStep items (.received itemId quantity)).1 =
      (.responded (buy items itemId quantity).1, (buy items itemId quantity).2) := by
  cases quantity with
  | none => simp [buyStep, buy]
  | some q =>
    by_cases h0 : (q == 0 || decide (q ≤ 0)) = true
    · simp [buyStep, buy, h0]
    · cases hsel : selectQuantity items itemId with
      | nil => simp [buyStep, buy, h0, hsel]
      | cons currentStock rest =>
        by_cases hlt : currentStock < q
        · simp [buyStep, buy, h0, hsel, hlt]
        · simp [buyStep, buy, h0, hsel, hlt, updateItemQuantity]

/-! ### The quantity update -/

/-- The role check of `updateQuantity`: without a dealer's session the answer
is 403 and the table is unchanged, whatever the id and the quantity. -/
theorem updateQuantity_forbidden (items : List Item) (session : Session) (id : Int)
    (quantity : Option Int) (h : notDealer session = true) :
    updateQuantity items session id quantity =
      (failure 403 "Only dealers can update quantity.", items) := by
  simp [updateQuantity, h]

/-- Neither definition of the quantity update ever answers 404. -/
theorem updateQuantity_never_notFound (items : List Item) (session : Session) (id : Int)
    (quantity : Option Int) :
    (updateQuantity items session id quantity).1.status ≠ 404 ∧
    (updateQuantityShadowed items id quantity).1.status ≠ 404 := by
  constructor
  · unfold updateQuantity
    repeat' split
    all_goals simp [failure, ok]
  · unfold updateQuantityShadowed
    repeat' split
    all_goals simp [failure, ok]

/-! ### Adding an item -/

/-- The two routes that add an item, `POST /api/add-item` and `POST /api/items`,
leave the same table. -/
theorem addItemLegacy_table (items : List Item) (session : Session) (body : ItemBody) :
    (addItemLegacy items body).2 = (addItem items session body).2 := by
  unfold addItemLegacy addItem
  split
  · rfl
  · split <;> rfl

/-! ### `LIKE` on a pattern without wildcards -/

theorem likeMatch_percent (p s : List Char) :
    likeMatch ('%' :: p) s = s.tails.any (likeMatch p) := by
  rw [likeMatch.eq_def]
  simp

theorem likeMatch_plain_nil (c : Char) (p : List Char) (h : plainChar c = true) :
    likeMatch (c :: p) [] = false := by
  simp only [plainChar, Bool.and_eq_true, Bool.not_eq_true', beq_eq_false_iff_ne, ne_eq] at h
  rw [likeMatch.eq_def]
  simp [h.1.1, h.1.2, h.2]

theorem likeMatch_plain_cons (c x : Char) (p t : List Char) (h : plainChar c = true) :
    likeMatch (c :: p) (x :: t) = (charEq x c && likeMatch p t) := by
  simp only [plainChar, Bool.and_eq_true, Bool.not_eq_true', beq_eq_false_iff_ne, ne_eq] at h
  rw [likeMatch.eq_def]
  simp [h.1.1, h.1.2, h.2]

theorem likeMatch_any (s : List Char) : likeMatch ['%'] s = true := by
  rw [likeMatch_percent, List.any_eq_true]
  exact ⟨[], (List.mem_tails [] s).2 List.nil_suffix, by decide⟩

theorem likeMatch_plain_append (q r : List Char) (hq : ∀ c ∈ q, plainChar c = true) :
    ∀ s, likeMatch (q ++ r) s = true ↔
      ∃ a b, s = a ++ b ∧ a.map Char.toLower = q.map Char.toLower ∧ likeMatch r b = true := by
  induction q with
  | nil =>
    intro s
    constructor
    · intro h
      exact ⟨[], s, rfl, rfl, h⟩
    · rintro ⟨a, b, rfl, ha, hb⟩
      have : a = [] := by simpa using ha
      subst this
      simpa using hb
  | cons c q ih =>
    intro s
    have hc : plainChar c = true := hq c (List.mem_cons_self c q)
    have hq' : ∀ d ∈ q, plainChar d = true := fun d hd => hq d (List.mem_cons_of_mem c hd)
    cases s with
    | nil =>
      rw [List.cons_append, likeMatch_plain_nil c _ hc]
      constructor
      · intro h
        cases h
      · rintro ⟨a, b, hab, ha, -⟩
        have hnil : a = [] := (List.append_eq_nil.mp hab.symm).1
        subst hnil
        simp at ha
    | cons x t =>
      rw [List.cons_append, likeMatch_plain_cons c x _ t hc, Bool.and_eq_true, ih hq' t]
      constructor
      · rintro ⟨hxc, a, b, rfl, ha, hb⟩
        refine ⟨x :: a, b, rfl, ?_, hb⟩
        have : x.toLower = c.toLower := by simpa [charEq] using hxc
        simp [this, ha]
      · rintro ⟨a, b, hab, ha, hb⟩
        cases a with
        | nil => simp at ha
        | cons y a' =>
          simp only [List.map_cons, List.cons.injEq] at ha
          simp only [List.cons_append, List.cons.injEq] at hab
          obtain ⟨rfl, rfl⟩ := hab
          exact ⟨by simpa [charEq] using ha.1, a', b, rfl, ha.2, hb⟩

theorem likeMatch_contains (q s : List Char) (hq : ∀ c ∈ q, plainChar c = true) :
    likeMatch ('%' :: (q ++ ['%'])) s = true ↔
      (q.map Char.toLower) <:+: (s.map Char.toLower) := by
  rw [likeMatch_percent, List.any_eq_true]
  constructor
  · rintro ⟨t, ht, hm⟩
    obtain ⟨pre, rfl⟩ := (List.mem_tails t s).1 ht
    obtain ⟨a, b, rfl, ha, -⟩ := (likeMatch_plain_append q ['%'] hq t).1 hm
    refine ⟨pre.map Char.toLower, b.map Char.toLower, ?_⟩
    simp [ha]
  · rintro ⟨l₁, l₂, h⟩
    obtain ⟨ab, b, hs, hab, -⟩ := List.map_eq_append_iff.mp h.symm
    obtain ⟨pre, a, rfl, -, ha⟩ := List.map_eq_append_iff.mp hab
    subst hs
    refine ⟨a ++ b, (List.mem_tails _ _).2 ⟨pre, by simp⟩, ?_⟩
    exact (likeMatch_plain_append q ['%'] hq (a ++ b)).2 ⟨a, b, rfl, ha, likeMatch_any b⟩

theorem sqlLike_contains (query subject : String)
    (hq : ∀ c ∈ query.toList, plainChar c = true) :
    sqlLike subject ("%" ++ (if falsy (some query) then "" else (some query).getD "") ++ "%") =
      containsIgnoreCase query subject := by
  have hpat : (if falsy (some query) = true then "" else (some query).getD "") = query := by
    by_cases h : query = ""
    · simp [falsy, h]
    · simp [falsy, h]
  rw [hpat, Bool.eq_iff_iff]
  have hl : ("%" ++ query ++ "%").toList = '%' :: (query.toList ++ ['%']) := by
    simp [String.toList]
  unfold sqlLike containsIgnoreCase
  rw [hl, likeMatch_contains _ _ hq]
  simp

/-! ## Claims -/

/-- C1. Starting from a table in which no quantity is negative, after any
finite sequence of purchases and quantity updates, with any ids, any request
quantities (absent ones included) and any sessions, no quantity is negative. -/
theorem nonNegative_runCalls (items : List Item) (calls : List StockCall)
    (h : NonNegative items) : NonNegative (runCalls items calls) := by
  unfold runCalls
  induction calls generalizing items with
  | nil => exact h
  | cons call rest ih => exact ih (call.run items) (nonNegative_run items call h)

/-- Witness of C1: a purchase, a dealer's update, an anonymous update and an
update without a quantity, on a table with one item. -/
theorem nonNegative_runCalls_witness :
    NonNegative [⟨5, "Cricket Bat", "Cricket", 100, 3, none⟩] ∧
    NonNegative (runCalls [⟨5, "Cricket Bat", "Cricket", 100, 3, none⟩]
      [.purchase 5 (some 2), .updateQuantity (some ⟨"dan", "pw", "dealer"⟩) 5 (some 7),
       .updateQuantity none 5 (some (-1)), .updateQuantity (some ⟨"dan", "pw", "dealer"⟩) 5 none,
       .purchase 5 (some 9)]) :=
  ⟨by decide, nonNegative_runCalls _ _ (by decide)⟩

/-- Counterexample to C2: item 1 holds quantity -4 (a row that `addItem`
stores when it is sent that quantity) and the amount -2 exceeds it; the answer
is "Invalid quantity", not the insufficient-stock message with the quantity. -/
theorem buy_negativeAmount_invalid :
    (selectQuantity [⟨1, "Ball", "Cricket", 10, -4, some "ball.png"⟩] 1).head? = some (-4) ∧
    (-4 : Int) < -2 ∧
    buy [⟨1, "Ball", "Cricket", 10, -4, some "ball.png"⟩] 1 (some (-2)) =
      (⟨200, some false, some "Invalid quantity", none, none⟩,
       [⟨1, "Ball", "Cricket", 10, -4, some "ball.png"⟩]) := by
  decide

/-- C2, amended. For every table, whatever its quantities, when the row the
handler reads for the id (the first with that id, the only one when ids are
unique) holds quantity `q` and the requested amount is positive and exceeds
`q`, the purchase leaves the table unchanged and answers `success: false` with
the message "Not enough stock available! Only q left.". -/
theorem buy_insufficientStock (items : List Item) (itemId q amount : Int)
    (hq : (selectQuantity items itemId).head? = some q)
    (hpos : 0 < amount)
    (hlt : q < amount) :
    buy items itemId (some amount) =
      (⟨200, some false,
        some ("Not enough stock available! Only " ++ toString q ++ " left."), none, none⟩,
       items) :=
  buy_refused items itemId q amount hq hpos hlt

/-- Witness of C2, amended: one item in stock, two asked for. -/
theorem buy_insufficientStock_witness :
    buy [⟨5, "Cricket Bat", "Cricket", 100, 1, none⟩] 5 (some 2) =
      (⟨200, some false,
        some ("Not enough stock available! Only " ++ toString (1 : Int) ++ " left."), none, none⟩,
       [⟨5, "Cricket Bat", "Cricket", 100, 1, none⟩]) :=
  buy_insufficientStock _ 5 1 2 (by decide) (by decide) (by decide)

/-- C3. When the row the handler reads for the id holds quantity `q` and
`0 < amount ≤ q`, the purchase answers `success: true` with the message
"Stock updated successfully! Remaining stock: q - amount", the rows with that id
get quantity `q - amount`, every other row is kept, and the stock read for the
id afterwards is `q - amount`.  On the item with id 5 and quantity 3, a purchase
of 2 succeeds and leaves 1; a second purchase of 2 fails with
"Not enough stock available! Only 1 left." and leaves 1. -/
theorem buy_decrements :
    (∀ (items : List Item) (itemId q amount : Int),
      (selectQuantity items itemId).head? = some q → 0 < amount → amount ≤ q →
        buy items itemId (some amount) =
          (ok ("Stock updated successfully! Remaining stock: " ++ toString (q - amount)),
           items.map (fun it =>
             if it.id == itemId then { it with quantity := q - amount } else it)) ∧
        (selectQuantity (buy items itemId (some amount)).2 itemId).head? = some (q - amount)) ∧
    buy [⟨5, "Cricket Bat", "Cricket", 100, 3, none⟩] 5 (some 2) =
      (ok "Stock updated successfully! Remaining stock: 1",
       [⟨5, "Cricket Bat", "Cricket", 100, 1, none⟩]) ∧
    buy [⟨5, "Cricket Bat", "Cricket", 100, 1, none⟩] 5 (some 2) =
      (⟨200, some false, some "Not enough stock available! Only 1 left.", none, none⟩,
       [⟨5, "Cricket Bat", "Cricket", 100, 1, none⟩]) := by
  refine ⟨?_, by decide, by decide⟩
  intro items itemId q amount hq hpos hle
  have hbuy := buy_served items itemId q amount hq hpos hle
  refine ⟨hbuy, ?_⟩
  rw [hbuy]
  exact head_selectQuantity_set items itemId q (q - amount) hq

/-- Witness of C3: the general statement at the item with id 5 and quantity 3. -/
theorem buy_decrements_witness :
    buy [⟨5, "Cricket Bat", "Cricket", 100, 3, none⟩] 5 (some 2) =
      (ok ("Stock updated successfully! Remaining stock: " ++ toString ((3 : Int) - 2)),
       [(⟨5, "Cricket Bat", "Cricket", 100, 3, none⟩ : Item)].map (fun it =>
         if it.id == 5 then { it with quantity := 3 - 2 } else it)) :=
  (buy_decrements.1 [⟨5, "Cricket Bat", "Cricket", 100, 3, none⟩] 5 3 2
    (by decide) (by decide) (by decide)).1

/-- C4. The handlers of `POST /api/items` and `DELETE /api/items/:id` do not
check the session: with nobody logged in, and with a customer logged in, an
item is added and an item is deleted, each with `success: true`; only
`PUT /api/update-quantity/:id` answers 403. -/
theorem dealerOnly_notEnforced :
    addItem [] none ⟨some "Ball", some "Cricket", some 10, some 2, some "ball.png"⟩ =
      (ok "Item added successfully!", [⟨1, "Ball", "Cricket", 10, 2, some "ball.png"⟩]) ∧
    addItem [] (some ⟨"carl", "pw", "customer"⟩)
        ⟨some "Ball", some "Cricket", some 10, some 2, some "ball.png"⟩ =
      (ok "Item added successfully!", [⟨1, "Ball", "Cricket", 10, 2, some "ball.png"⟩]) ∧
    deleteItem [⟨5, "Cricket Bat", "Cricket", 100, 3, none⟩] none 5 =
      (ok "Item deleted successfully!", []) ∧
    deleteItem [⟨5, "Cricket Bat", "Cricket", 100, 3, none⟩] (some ⟨"carl", "pw", "customer"⟩) 5 =
      (ok "Item deleted successfully!", []) ∧
    updateQuantity [⟨5, "Cricket Bat", "Cricket", 100, 3, none⟩] none 5 (some 9) =
      (failure 403 "Only dealers can update quantity.",
       [⟨5, "Cricket Bat", "Cricket", 100, 3, none⟩]) := by
  decide

/-- Counterexample to C5: a dealer updates the quantity of id 7 in a table
that has no item with id 7; the answer is 200 with `success: true`, not 404. -/
theorem updateQuantity_missingId_succeeds :
    (∀ it ∈ [(⟨5, "Cricket Bat", "Cricket", 100, 3, none⟩ : Item)], it.id ≠ 7) ∧
    updateQuantity [⟨5, "Cricket Bat", "Cricket", 100, 3, none⟩]
        (some ⟨"dan", "pw", "dealer"⟩) 7 (some 3) =
      (ok "Item quantity updated successfully!",
       [⟨5, "Cricket Bat", "Cricket", 100, 3, none⟩]) := by
  decide

/-- C5, amended. For a dealer's session and an integer quantity `q` the call
has two outcomes.  If `q < 0` it answers 400 and the table is unchanged.
Otherwise it answers 200 with `success: true`, every row with that id gets
quantity `q` and the other rows are kept; when no row has that id the table is
unchanged and the answer is still the success (there is no 404). -/
theorem updateQuantity_dealer (items : List Item) (session : Session) (id q : Int)
    (hd : notDealer session = false) :
    (q < 0 → updateQuantity items session id (some q) = (failure 400 "Invalid quantity.", items)) ∧
    (0 ≤ q →
      updateQuantity items session id (some q) =
        (ok "Item quantity updated successfully!",
         items.map (fun it => if it.id == id then { it with quantity := q } else it)) ∧
      (∀ it ∈ (updateQuantity items session id (some q)).2, it.id = id → it.quantity = q) ∧
      ((∀ it ∈ items, it.id ≠ id) →
        updateQuantity items session id (some q) =
          (ok "Item quantity updated successfully!", items))) := by
  refine ⟨fun hneg => by simp [updateQuantity, hd, hneg], fun hq => ?_⟩
  have hnot : ¬ (q < 0) := by omega
  have hrun : updateQuantity items session id (some q) =
      (ok "Item quantity updated successfully!",
       items.map (fun it => if it.id == id then { it with quantity := q } else it)) := by
    simp [updateQuantity, hd, hnot, updateItemQuantity]
  refine ⟨hrun, ?_, ?_⟩
  · rw [hrun]
    intro it hit hid
    simp only [List.mem_map] at hit
    obtain ⟨a, -, rfl⟩ := hit
    by_cases ha : a.id = id
    · simp [ha]
    · simp [ha] at hid
  · intro hnone
    rw [hrun]
    congr 1
    conv_rhs => rw [← List.map_id items]
    apply List.map_congr_left
    intro a ha
    simp [hnone a ha]

/-- Witness of C5, amended: a dealer sets the quantity of item 5 to 9. -/
theorem updateQuantity_dealer_witness :
    updateQuantity [⟨5, "Cricket Bat", "Cricket", 100, 3, none⟩]
        (some ⟨"dan", "pw", "dealer"⟩) 5 (some 9) =
      (ok "Item quantity updated successfully!",
       [(⟨5, "Cricket Bat", "Cricket", 100, 3, none⟩ : Item)].map
         (fun it => if it.id == 5 then { it with quantity := 9 } else it)) :=
  ((updateQuantity_dealer [⟨5, "Cricket Bat", "Cricket", 100, 3, none⟩]
    (some ⟨"dan", "pw", "dealer"⟩) 5 9 (by decide)).2 (by decide)).1

/-- Counterexample to C6: a request with every field but `image_url` and a
positive quantity is rejected with 400; a request with quantity 0 is rejected
with 400; a request with quantity -4 is accepted and a row with quantity -4 is
stored. -/
theorem addItem_not_as_claimed :
    addItem [] (some ⟨"dan", "pw", "dealer"⟩)
        ⟨some "Ball", some "Cricket", some 10, some 2, none⟩ =
      (messageOnly 400 "All fields are required!", []) ∧
    addItem [] (some ⟨"dan", "pw", "dealer"⟩)
        ⟨some "Ball", some "Cricket", some 10, some 0, some "ball.png"⟩ =
      (messageOnly 400 "All fields are required!", []) ∧
    addItem [] (some ⟨"dan", "pw", "dealer"⟩)
        ⟨some "Ball", some "Cricket", some 10, some (-4), some "ball.png"⟩ =
      (ok "Item added successfully!", [⟨1, "Ball", "Cricket", 10, -4, some "ball.png"⟩]) := by
  decide

/-- C6, amended. A request whose name, category and image_url are non-empty
strings, whose price is a non-zero number and whose quantity is a positive
number is accepted: exactly one row with those values and an id that no row of
the table has is appended, and the answer is `success: true`.  A request in
which name, category or image_url is absent or empty, or price or quantity is
absent, is rejected with 400 and the table is unchanged. -/
theorem addItem_outcomes (items : List Item) (session : Session) :
    (∀ (n c u : String) (p q : Int), n ≠ "" → c ≠ "" → u ≠ "" → p ≠ 0 → 0 < q →
      addItem items session ⟨some n, some c, some p, some q, some u⟩ =
        (ok "Item added successfully!", items ++ [⟨freshId items, n, c, p, q, some u⟩]) ∧
      ∀ it ∈ items, it.id ≠ freshId items) ∧
    (∀ body : ItemBody,
      (falsy body.name = true ∨ falsy body.category = true ∨ body.price = none ∨
        body.quantity = none ∨ falsy body.image_url = true) →
      addItem items session body = (messageOnly 400 "All fields are required!", items)) := by
  constructor
  · intro n c u p q hn hc hu hp hq
    have hq0 : q ≠ 0 := by omega
    refine ⟨by simp [addItem, falsy, falsyNum, hn, hc, hu, hp, hq0, insertItem], ?_⟩
    intro it hit
    exact ne_of_lt (lt_freshId items it hit)
  · intro body h
    rcases h with h | h | h | h | h
    · simp [addItem, h]
    · simp [addItem, h]
    · simp [addItem, h, falsyNum]
    · simp [addItem, h, falsyNum]
    · simp [addItem, h]

/-- Witness of C6, amended: a ball is added to a table holding item 5. -/
theorem addItem_outcomes_witness :
    addItem [⟨5, "Cricket Bat", "Cricket", 100, 3, none⟩] none
        ⟨some "Ball", some "Cricket", some 10, some 2, some "ball.png"⟩ =
      (ok "Item added successfully!",
       [⟨5, "Cricket Bat", "Cricket", 100, 3, none⟩] ++
         [⟨freshId [⟨5, "Cricket Bat", "Cricket", 100, 3, none⟩], "Ball", "Cricket", 10, 2,
           some "ball.png"⟩]) :=
  ((addItem_outcomes [⟨5, "Cricket Bat", "Cricket", 100, 3, none⟩] none).1
    "Ball" "Cricket" "ball.png" 10 2 (by decide) (by decide) (by decide) (by decide)
    (by decide)).1

/-- Counterexample to C7: for the query "%" and for the query "_" the handler
returns both items, although no name and no category contains either
character, so the substring search of the spec returns none. -/
theorem getItems_wildcard_query :
    getItems [⟨1, "Cricket Bat", "Cricket", 100, 3, none⟩, ⟨2, "Football", "Football", 50, 4, none⟩]
        (some "%") =
      [⟨1, "Cricket Bat", "Cricket", 100, 3, none⟩, ⟨2, "Football", "Football", 50, 4, none⟩] ∧
    specSearch
        [⟨1, "Cricket Bat", "Cricket", 100, 3, none⟩, ⟨2, "Football", "Football", 50, 4, none⟩]
        "%" = [] ∧
    getItems [⟨1, "Cricket Bat", "Cricket", 100, 3, none⟩, ⟨2, "Football", "Football", 50, 4, none⟩]
        (some "_") =
      [⟨1, "Cricket Bat", "Cricket", 100, 3, none⟩, ⟨2, "Football", "Football", 50, 4, none⟩] ∧
    specSearch
        [⟨1, "Cricket Bat", "Cricket", 100, 3, none⟩, ⟨2, "Football", "Football", 50, 4, none⟩]
        "_" = [] := by
  decide

/-- C7, amended. For every table and every query that contains none of the
characters `%`, `_` and backslash, the handler returns exactly the items whose
name or category contains the query as a case-insensitive substring, in table
order; the absent query and the empty query return every item; the query "bat"
over the items named "Cricket Bat" and "Football" returns only the first. -/
theorem getItems_eq_specSearch (items : List Item) :
    (∀ query : String, (∀ c ∈ query.toList, plainChar c = true) →
      getItems items (some query) = specSearch items query) ∧
    getItems items none = items ∧
    getItems items (some "") = items ∧
    getItems [⟨1, "Cricket Bat", "Cricket", 100, 3, none⟩, ⟨2, "Football", "Football", 50, 4, none⟩]
        (some "bat") = [⟨1, "Cricket Bat", "Cricket", 100, 3, none⟩] := by
  have hmain : ∀ query : String, (∀ c ∈ query.toList, plainChar c = true) →
      getItems items (some query) = specSearch items query := by
    intro query hq
    unfold getItems specSearch
    apply List.filter_congr
    intro it _
    rw [sqlLike_contains query it.name hq, sqlLike_contains query it.category hq]
  have hempty : getItems items (some "") = items := by
    rw [hmain "" (by decide)]
    unfold specSearch
    rw [List.filter_eq_self]
    intro it _
    simp [containsIgnoreCase]
  refine ⟨hmain, ?_, hempty, by decide⟩
  have hnone : getItems items none = getItems items (some "") := by
    simp [getItems, falsy]
  rw [hnone, hempty]

/-- Witness of C7, amended: the query "bat". -/
theorem getItems_eq_specSearch_witness :
    getItems [⟨1, "Cricket Bat", "Cricket", 100, 3, none⟩] (some "bat") =
      specSearch [⟨1, "Cricket Bat", "Cricket", 100, 3, none⟩] "bat" :=
  (getItems_eq_specSearch [⟨1, "Cricket Bat", "Cricket", 100, 3, none⟩]).1 "bat" (by decide)

/-- Counterexample to C8: the username is taken and the supplied password is
the empty string; the answer is "All fields are required.", not
"Username already exists.". -/
theorem signup_taken_emptyPassword :
    signup [⟨"alice", "pw", "customer"⟩] ⟨some "alice", some "", some "dealer"⟩ =
      (failure 400 "All fields are required.", [⟨"alice", "pw", "customer"⟩]) := by
  decide

/-- C8, amended. When the table holds a user with username `u`: for every
non-empty `u`, password and role, signup answers 400 "Username already exists."
and the table is unchanged; and for every body with that username, whatever
its password and role (absent and empty ones included), the answer is 400 with
`success: false` and the table is unchanged. -/
theorem signup_taken (users : List User) (u : String) (h : ∃ x ∈ users, x.username = u) :
    (∀ password role : String, u ≠ "" → password ≠ "" → role ≠ "" →
      signup users ⟨some u, some password, some role⟩ =
        (failure 400 "Username already exists.", users)) ∧
    (∀ password role : Option String,
      (signup users ⟨some u, password, role⟩).1.status = 400 ∧
      (signup users ⟨some u, password, role⟩).1.success = some false ∧
      (signup users ⟨some u, password, role⟩).2 = users) := by
  obtain ⟨x, hx, hxu⟩ := h
  have hrows : (selectUsersByName users (some u)).length > 0 := by
    have hmem : x ∈ selectUsersByName users (some u) := by
      simp [selectUsersByName, List.mem_filter, hx, hxu]
    exact List.length_pos_of_mem hmem
  constructor
  · intro password role hu hp hr
    simp only [signup, falsy]
    simp [hu, hp, hr, hrows]
  · intro password role
    simp only [signup]
    split
    · simp [failure]
    · simp [hrows, failure]

/-- Witness of C8, amended: alice is taken. -/
theorem signup_taken_witness :
    signup [⟨"alice", "pw", "customer"⟩] ⟨some "alice", some "other", some "dealer"⟩ =
      (failure 400 "Username already exists.", [⟨"alice", "pw", "customer"⟩]) :=
  (signup_taken [⟨"alice", "pw", "customer"⟩] "alice"
    ⟨⟨"alice", "pw", "customer"⟩, by simp, rfl⟩).1 "other" "dealer"
    (by decide) (by decide) (by decide)

/-- Counterexample to C9: a wrong password that is the empty string is
answered with 400, not 401; and a wrong password sent on a session that is
bound to bob is answered with 401 while the session stays bound to bob. -/
theorem login_mismatch_not_as_claimed :
    login [⟨"alice", "pw", "customer"⟩] none ⟨some "alice", some ""⟩ =
      (failure 400 "Enter username and password", none) ∧
    login [⟨"alice", "pw", "customer"⟩] (some ⟨"bob", "b", "dealer"⟩)
        ⟨some "alice", some "wrong"⟩ =
      (failure 401 "Invalid username or password", some ⟨"bob", "b", "dealer"⟩) := by
  decide

/-- C9, amended. For a non-empty username `u` and a non-empty password `p`:
login answers `success: true` exactly when the table holds a user whose
username is `u` and whose password is `p`; then the answer is 200 with that
user's username and role and the session is bound to that user (the first such
row); otherwise the answer is 401 "Invalid username or password" and the
session is left as it was. -/
theorem login_iff (users : List User) (session : Session) (u p : String)
    (hu : u ≠ "") (hp : p ≠ "") :
    ((login users session ⟨some u, some p⟩).1.success = some true ↔
      ∃ x ∈ users, x.username = u ∧ x.password = p) ∧
    ((∃ x ∈ users, x.username = u ∧ x.password = p) →
      ∃ x ∈ users, x.username = u ∧ x.password = p ∧
        login users session ⟨some u, some p⟩ =
          (⟨200, some true, none, some x.username, some x.role⟩, some x)) ∧
    ((¬ ∃ x ∈ users, x.username = u ∧ x.password = p) →
      login users session ⟨some u, some p⟩ =
        (failure 401 "Invalid username or password", session)) := by
  have hrun : login users session ⟨some u, some p⟩ =
      match selectUsersByCredentials users (some u) (some p) with
      | [] => (failure 401 "Invalid username or password", session)
      | user :: _ => (⟨200, some true, none, some user.username, some user.role⟩, some user) := by
    simp [login, falsy, hu, hp]
  have hmem : ∀ x, x ∈ selectUsersByCredentials users (some u) (some p) ↔
      x ∈ users ∧ x.username = u ∧ x.password = p := by
    intro x
    simp [selectUsersByCredentials, List.mem_filter]
  cases hsel : selectUsersByCredentials users (some u) (some p) with
  | nil =>
    have hno : ¬ ∃ x ∈ users, x.username = u ∧ x.password = p := by
      rintro ⟨x, hx, hxu, hxp⟩
      have := (hmem x).2 ⟨hx, hxu, hxp⟩
      rw [hsel] at this
      cases this
    rw [hrun, hsel]
    refine ⟨?_, fun h => absurd h hno, fun _ => rfl⟩
    constructor
    · intro h
      simp [failure] at h
    · intro h
      exact absurd h hno
  | cons user rest =>
    have huser : user ∈ users ∧ user.username = u ∧ user.password = p :=
      (hmem user).1 (by rw [hsel]; exact List.mem_cons_self user rest)
    have hyes : ∃ x ∈ users, x.username = u ∧ x.password = p :=
      ⟨user, huser.1, huser.2.1, huser.2.2⟩
    rw [hrun, hsel]
    refine ⟨⟨fun _ => hyes, fun _ => rfl⟩, fun _ => ?_, fun h => absurd hyes h⟩
    exact ⟨user, huser.1, huser.2.1, huser.2.2, rfl⟩

/-- Witness of C9, amended: alice logs in with her password. -/
theorem login_iff_witness :
    (login [⟨"alice", "pw", "customer"⟩] none ⟨some "alice", some "pw"⟩).1.success = some true ↔
      ∃ x ∈ [(⟨"alice", "pw", "customer"⟩ : User)], x.username = "alice" ∧ x.password = "pw" :=
  (login_iff [⟨"alice", "pw", "customer"⟩] none "alice" "pw" (by decide) (by decide)).1

/-- C10. Item 5 has quantity 3 and two purchases of 2 are in flight.  When
both run their `SELECT` before either runs its `UPDATE`, both read 3, both
write 1 and both answer `success: true`: the successful amounts sum to 4, more
than the 3 in stock.  Served one after the other, the second is refused. -/
theorem concurrent_buy_oversells :
    runSchedule [⟨5, "Cricket Bat", "Cricket", 100, 3, none⟩]
        [.received 5 (some 2), .received 5 (some 2)] [0, 1, 0, 1] =
      ([.responded (ok "Stock updated successfully! Remaining stock: 1"),
        .responded (ok "Stock updated successfully! Remaining stock: 1")],
       [⟨5, "Cricket Bat", "Cricket", 100, 1, none⟩]) ∧
    runSchedule [⟨5, "Cricket Bat", "Cricket", 100, 3, none⟩]
        [.received 5 (some 2), .received 5 (some 2)] [0, 0, 1, 1] =
      ([.responded (ok "Stock updated successfully! Remaining stock: 1"),
        .responded ⟨200, some false, some "Not enough stock available! Only 1 left.",
          none, none⟩],
       [⟨5, "Cricket Bat", "Cricket", 100, 1, none⟩]) := by
  decide

end SportsHub
